import Mathlib

/-!
# SmarTest dispatcher core: shallow embedding and verification

This file embeds, in Lean 4, the dispatcher/cache/normalizer core of the
SmarTest repository and proves (or refutes) the frozen specification claims
about it.  The embedded functions are direct transcriptions of:

* `src/services/aiService.ts` (`evaluateTest`, current revision: converts each
  per-question score to a percentage),
* `src/unnamed/part_009` (an `aiService.evaluateTest` revision: keeps raw
  scores and attaches `maxMarks`),
* `src/unnamed/part_002` (`supabase/functions/clever-endpoint/index.ts`:
  `withRetry`, `generateWithFallback`, the `serve` request handler and its
  caching logic).

Modelling conventions:
* JavaScript numbers are modelled as `ℚ` (no NaN/Infinity); for a number `x`,
  the JS expression `x || 0` is the identity except at `0`, where it is also
  `0`, so it is modelled as the identity on `ℚ`.
* `Math.round x` is `⌊x + 1/2⌋` (JS rounds half toward +∞).
* Asynchronous effects are modelled by explicit outcome functions: the result
  of the i-th invocation of an external call is a value `f i : Except ε α`,
  and `Math.random()` jitter is an explicit stream `jitter : Nat → ℚ`.
* Thrown JS exceptions are `Except.error`; `try/catch` is a `match`.
-/

namespace SmarTest

/-- JS `Math.round` on our rational model of JS numbers: `⌊x + 1/2⌋`. -/
def jsRound (x : ℚ) : ℤ := (x + 1/2).floor

/-! ## Client data model (`src/types.ts`) -/

/-- The `QuestionType` union from `src/types.ts`. -/
inductive QuestionType where
  | multipleChoice
  | trueFalse
  | shortAnswer
  | longAnswer
  | readingComprehension
deriving DecidableEq, Repr

/-- The `ComprehensionQuestion` shape from `src/types.ts` (only the field the
aggregator reads). `marks : number` is required in the TS type. -/
structure ComprehensionQuestion where
  marks : ℚ
deriving DecidableEq, Repr

/-- The `Question` shape from `src/types.ts`, restricted to the fields the aggregator
reads: `type`, `marks`, and the optional `comprehensionQuestions` array. -/
structure Question where
  type : QuestionType
  marks : ℚ
  comprehensionQuestions : Option (List ComprehensionQuestion)
deriving DecidableEq, Repr

/-- The `QuestionScore` shape from `src/types.ts`: one provider-produced entry of
`questionScores`. -/
structure QuestionScore where
  score : ℚ
  feedback : String
deriving DecidableEq, Repr

/-- The provider-produced `EvaluationResult` shape, before client-side
aggregation.  `questionScores` is `Option` because the parsed JSON value may
lack the field (the code guards on `evaluationData.questionScores &&`). -/
structure EvalIn where
  overallScore : ℚ
  feedback : String
  suggestions : String
  strengths : String
  weaknesses : String
  questionScores : Option (List QuestionScore)
deriving DecidableEq, Repr

/-- A `questionScores` entry as returned to the caller of `evaluateTest`.
`maxMarks = none` models a JS object on which no `maxMarks` property was ever
set (the provider never produces one). -/
structure QuestionScoreOut where
  score : ℚ
  feedback : String
  maxMarks : Option ℚ
deriving DecidableEq, Repr

/-- The `EvaluationResult` object as returned by `evaluateTest`.
`totalAwardedMarks`/`totalPossibleMarks` are `none` when the revision never
sets those properties. -/
structure EvalOut where
  overallScore : ℚ
  feedback : String
  suggestions : String
  strengths : String
  weaknesses : String
  questionScores : Option (List QuestionScoreOut)
  totalAwardedMarks : Option ℚ
  totalPossibleMarks : Option ℚ
deriving DecidableEq, Repr

/-! ## Score aggregation (`evaluateTest` post-processing)

Two revisions exist in the repository and disagree:
* `src/unnamed/part_009` lines 48–79 keeps each raw score and attaches
  `maxMarks`;
* `src/services/aiService.ts` lines 53–79 replaces each score by a
  percentage and attaches no `maxMarks`.
Both compute the same totals and `overallScore`. -/

/-- The per-question maximum marks, as computed inside the `map` of both
revisions (`let maxMarks = question.marks; if (question.type ===
'reading-comprehension' && question.comprehensionQuestions) maxMarks =
question.comprehensionQuestions.reduce((sum, cq) => sum + (cq.marks || 0), 0)`).
Note a present-but-empty sub-question array is truthy in JS, so it takes the
comprehension branch. -/
def maxMarksOf (q : Question) : ℚ :=
  match q.type, q.comprehensionQuestions with
  | .readingComprehension, some cqs => cqs.foldl (fun sum cq => sum + cq.marks) 0
  | _, _ => q.marks

/-- Computes `totalAwardedMarks`: `questionScores.reduce((sum, score) => sum +
(score.score || 0), 0)` (part_009; the current revision omits the `|| 0`,
which is the identity in our model either way). -/
def totalAwardedMarks (ss : List QuestionScore) : ℚ :=
  ss.foldl (fun sum s => sum + s.score) 0

/-- The reducer of `totalPossibleMarks`: the comprehension branch adds the
sum of the sub-question marks, every other question adds `q.marks || 0`. -/
def totalPossibleStep (total : ℚ) (q : Question) : ℚ :=
  match q.type, q.comprehensionQuestions with
  | .readingComprehension, some cqs =>
      total + cqs.foldl (fun compTotal compQ => compTotal + compQ.marks) 0
  | _, _ => total + q.marks

/-- Computes `totalPossibleMarks`: `questions.reduce((total, q) => ...)`. -/
def totalPossibleMarks (qs : List Question) : ℚ :=
  qs.foldl totalPossibleStep 0

/-- Computes `overallScore = totalPossibleMarks > 0 ? Math.round((totalAwardedMarks /
totalPossibleMarks) * 100) : 0` — common to both revisions. -/
def overallScoreOf (awarded possible : ℚ) : ℚ :=
  if 0 < possible then (jsRound (awarded / possible * 100) : ℚ) else 0

/-- When the guard `evaluationData.questionScores &&
evaluationData.questionScores.length === questions.length` fails, both
revisions return the parsed object unchanged: no totals, no enrichment. -/
def passthroughOut (ev : EvalIn) : EvalOut :=
  { overallScore := ev.overallScore
    feedback := ev.feedback
    suggestions := ev.suggestions
    strengths := ev.strengths
    weaknesses := ev.weaknesses
    questionScores := ev.questionScores.map (List.map
      (fun s => { score := s.score, feedback := s.feedback, maxMarks := none }))
    totalAwardedMarks := none
    totalPossibleMarks := none }

/-- Post-processing of `evaluateTest`, `src/unnamed/part_009` lines 48–79:
attaches `totalAwardedMarks`, `totalPossibleMarks`, recomputes
`overallScore`, and maps each entry to `{ ...qScore, maxMarks }`, keeping the
raw awarded score. -/
def processEvaluation009 (questions : List Question) (ev : EvalIn) : EvalOut :=
  match ev.questionScores with
  | some ss =>
    if ss.length = questions.length then
      { overallScore := overallScoreOf (totalAwardedMarks ss) (totalPossibleMarks questions)
        feedback := ev.feedback
        suggestions := ev.suggestions
        strengths := ev.strengths
        weaknesses := ev.weaknesses
        questionScores := some ((ss.zip questions).map
          (fun p => { score := p.1.score, feedback := p.1.feedback
                      maxMarks := some (maxMarksOf p.2) }))
        totalAwardedMarks := some (totalAwardedMarks ss)
        totalPossibleMarks := some (totalPossibleMarks questions) }
    else passthroughOut ev
  | none => passthroughOut ev

/-- The per-entry replacement of the current revision
(`src/services/aiService.ts` line 75–77): `const percentage = maxMarks > 0 ?
Math.round((qScore.score / maxMarks) * 100) : 0; return { ...qScore, score:
percentage }`. -/
def percentageScore (score maxMarks : ℚ) : ℚ :=
  if 0 < maxMarks then (jsRound (score / maxMarks * 100) : ℚ) else 0

/-- Post-processing of `evaluateTest`, `src/services/aiService.ts` lines 53–79:
recomputes `overallScore` from the same totals, then replaces each entry's
`score` by a per-question percentage; it never sets `maxMarks`,
`totalAwardedMarks` or `totalPossibleMarks` on the returned object. -/
def processEvaluationServices (questions : List Question) (ev : EvalIn) : EvalOut :=
  match ev.questionScores with
  | some ss =>
    if ss.length = questions.length then
      { overallScore := overallScoreOf (totalAwardedMarks ss) (totalPossibleMarks questions)
        feedback := ev.feedback
        suggestions := ev.suggestions
        strengths := ev.strengths
        weaknesses := ev.weaknesses
        questionScores := some ((ss.zip questions).map
          (fun p => { score := percentageScore p.1.score (maxMarksOf p.2)
                      feedback := p.1.feedback
                      maxMarks := none }))
        totalAwardedMarks := none
        totalPossibleMarks := none }
    else passthroughOut ev
  | none => passthroughOut ev

/-! ## Client `evaluateTest` response handling

Both revisions handle the invoke result identically
(`src/services/aiService.ts` lines 35–51, `src/unnamed/part_009` lines
30–46): missing data throws; a string payload has a markdown fence stripped
and is JSON-parsed (a parse failure throws `'AI returned an invalid response
format...'`); a structured payload is used as-is.  The guarded aggregation
block then runs — and when its guard fails the object is returned as-is. -/

/-- Fence stripping `data.replace(/^```json\s*|```$/g, '').trim()`: remove one leading
"```json" plus following whitespace and one trailing "```", then trim. -/
def stripFence (s : String) : String :=
  let s1 := if s.startsWith "```json" then (s.drop 7).dropWhile Char.isWhitespace else s
  let s2 := if s1.endsWith "```" then s1.dropRight 3 else s1
  s2.trim

/-- The `data` value returned by `supabase.functions.invoke`: either a raw
string body or an already-structured JSON value of the evaluation shape. -/
inductive InvokeData where
  | str (s : String)
  | json (ev : EvalIn)
deriving Repr

/-- The errors `evaluateTest` can throw after a successful invoke. -/
inductive ClientError where
  | noData
  | invalidFormat (raw : String)
deriving DecidableEq, Repr

/-- Transcription of `evaluateTest` from `src/unnamed/part_009`, from the invoke result on
(`data` is `none` when the function returned no data; `parse` is the JSON
parse of the cleaned string, `none` modelling a `JSON.parse` exception). -/
def evaluateTest009 (parse : String → Option EvalIn) (questions : List Question)
    (data : Option InvokeData) : Except ClientError EvalOut :=
  match data with
  | none => .error .noData
  | some (.str s) =>
    match parse (stripFence s) with
    | none => .error (.invalidFormat s)
    | some ev => .ok (processEvaluation009 questions ev)
  | some (.json ev) => .ok (processEvaluation009 questions ev)

/-- Transcription of `evaluateTest` from `src/services/aiService.ts`, same response handling,
current (percentage) aggregation. -/
def evaluateTestServices (parse : String → Option EvalIn) (questions : List Question)
    (data : Option InvokeData) : Except ClientError EvalOut :=
  match data with
  | none => .error .noData
  | some (.str s) =>
    match parse (stripFence s) with
    | none => .error (.invalidFormat s)
    | some ev => .ok (processEvaluationServices questions ev)
  | some (.json ev) => .ok (processEvaluationServices questions ev)

/-! ## `withRetry` (`src/unnamed/part_002` lines 78–90)

```js
async function withRetry(fn, retries = 3) {
  for (let i = 0; i < retries; i++) {
    try { return await fn(); } catch (err) {
      if (i === retries - 1) throw err;
      const wait = 1000 * Math.pow(2, i) + Math.random() * 1000;
      await new Promise(res => setTimeout(res, wait));
    }
  }
  throw new Error("All retries failed.");
}
```
The i-th invocation of `fn` has outcome `fn i`; the i-th `Math.random()`
draw (scaled by 1000) is `jitter i`.  Besides the result we record the
number of invocations of `fn` and the list of waits actually slept. -/

/-- What `withRetry` can throw: the re-thrown last error of `fn`, or the
`"All retries failed."` error reached only when `retries = 0`. -/
inductive RetryError (ε : Type) where
  | fnErr (e : ε)
  | allRetriesFailed
deriving DecidableEq, Repr

/-- The backoff delay computed after zero-indexed failed attempt `i`:
`1000 * Math.pow(2, i) + Math.random() * 1000`. -/
def retryDelay (jitter : Nat → ℚ) (i : Nat) : ℚ :=
  1000 * 2 ^ i + jitter i

/-- The loop of `withRetry`, with `k` iterations left and `i` the current
zero-indexed attempt (`k + i = retries` at every call).  Returns (result,
number of `fn` invocations, waits slept). -/
def retryAux (fn : Nat → Except ε α) (jitter : Nat → ℚ) :
    Nat → Nat → Except (RetryError ε) α × Nat × List ℚ
  | 0, _ => (.error .allRetriesFailed, 0, [])
  | k + 1, i =>
    match fn i with
    | .ok a => (.ok a, 1, [])
    | .error e =>
      if k = 0 then (.error (.fnErr e), 1, [])
      else
        let rest := retryAux fn jitter k (i + 1)
        (rest.1, rest.2.1 + 1, retryDelay jitter i :: rest.2.2)

/-- Entry point `withRetry fn` with the default budget of 3 attempts. -/
def withRetry (fn : Nat → Except ε α) (jitter : Nat → ℚ) (retries : Nat := 3) :
    Except (RetryError ε) α × Nat × List ℚ :=
  retryAux fn jitter retries 0

/-! ## `generateWithFallback` (`src/unnamed/part_002` lines 92–179)

The cascade tries Gemini, then Groq, then OpenAI.  A provider whose API key
environment variable is missing (or is the empty string, which is falsy in
JS) is skipped.  Each configured provider's external call is wrapped in
`withRetry` with the default budget; any error escaping the provider's `try`
block is logged and the cascade falls through to the next provider.  If the
cascade falls off the end it throws one generic error. -/

/-- The result of one `fetch` to the Groq/OpenAI chat-completions endpoint
(the fields the code reads): `ok`/`status` of the HTTP response, `body` as
read by `await response.text()` in the error path, and the
`choices[i].message.content` strings of the parsed JSON body. -/
structure HttpResponse where
  ok : Bool
  status : Nat
  body : String
  choices : List String
deriving DecidableEq, Repr

/-- An error escaping one provider's `try` block: the error propagated out
of `withRetry`, the `Groq/OpenAI API error (status): body` error thrown on a
non-2xx response, or the TypeError from reading `data.choices[0].message`
when `choices` is empty. -/
inductive BranchError (ε : Type) where
  | retry (e : RetryError ε)
  | apiError (status : Nat) (body : String)
  | noChoices
deriving DecidableEq, Repr

/-- The Gemini branch body (lines 96–114): `withRetry(() =>
ai.models.generateContent(payload))`, then `return response.text`.  The
attempt outcomes `runs i` carry the extracted text directly.  Also returns
the number of external calls made. -/
def tryGemini (runs : Nat → Except ε String) (jitter : Nat → ℚ) :
    Except (BranchError ε) String × Nat :=
  let r := withRetry runs jitter
  match r.1 with
  | .ok t => (.ok t, r.2.1)
  | .error e => (.error (.retry e), r.2.1)

/-- The Groq branch body (lines 123–141) — the OpenAI branch (lines 153–171)
is the same code with a different URL and model.  `withRetry(() => fetch(...))`
retries only a rejected `fetch` promise; the `if (!response.ok) throw`
status check and the `data.choices[0].message.content` extraction run
**after** `withRetry` has returned. -/
def tryFetchProvider (runs : Nat → Except ε HttpResponse) (jitter : Nat → ℚ) :
    Except (BranchError ε) String × Nat :=
  let r := withRetry runs jitter
  match r.1 with
  | .error e => (.error (.retry e), r.2.1)
  | .ok resp =>
    if !resp.ok then (.error (.apiError resp.status resp.body), r.2.1)
    else
      match resp.choices.head? with
      | some content => (.ok content, r.2.1)
      | none => (.error .noChoices, r.2.1)

/-- The three provider API keys as read from `Deno.env.get`. -/
structure Env where
  geminiKey : Option String
  groqKey : Option String
  openaiKey : Option String
deriving DecidableEq, Repr

/-- JS truthiness of `Deno.env.get(...)`: present and non-empty. -/
def truthyKey : Option String → Bool
  | some s => !s.isEmpty
  | none => false

/-- The attempt outcomes of the three providers' external calls. -/
structure ProviderRuns (ε : Type) where
  gemini : Nat → Except ε String
  groq : Nat → Except ε HttpResponse
  openai : Nat → Except ε HttpResponse

/-- The only failure `generateWithFallback` itself throws (line 178): the
one generic `'All API providers (Gemini, Groq, OpenAI) failed.'` error.  The
code has no separate zero-providers-configured error. -/
inductive FallbackError where
  | allProvidersFailed
deriving DecidableEq, Repr

/-- Message of the error thrown at `src/unnamed/part_002` line 178. -/
def fallbackErrorMessage : FallbackError → String
  | .allProvidersFailed =>
    "All API providers (Gemini, Groq, OpenAI) failed. Please check your keys, billing, and API status."

/-- The provider identifiers, in the cascade's fixed priority order. -/
inductive Provider where
  | gemini
  | groq
  | openai
deriving DecidableEq, Repr

/-- OpenAI stage of the cascade (lines 150–178): attempt OpenAI if
configured, else (or on failure) throw the generic error.  The second
component records, in order, each provider attempted and how many external
calls it made. -/
def openaiStage (env : Env) (runs : ProviderRuns ε) (jitter : Nat → ℚ) :
    Except FallbackError String × List (Provider × Nat) :=
  if truthyKey env.openaiKey then
    match tryFetchProvider runs.openai jitter with
    | (.ok t, n) => (.ok t, [(.openai, n)])
    | (.error _, n) => (.error .allProvidersFailed, [(.openai, n)])
  else (.error .allProvidersFailed, [])

/-- Groq stage of the cascade (lines 120–148): attempt Groq if configured;
on failure or if skipped, fall through to the OpenAI stage. -/
def groqStage (env : Env) (runs : ProviderRuns ε) (jitter : Nat → ℚ) :
    Except FallbackError String × List (Provider × Nat) :=
  if truthyKey env.groqKey then
    match tryFetchProvider runs.groq jitter with
    | (.ok t, n) => (.ok t, [(.groq, n)])
    | (.error _, n) =>
      let rest := openaiStage env runs jitter
      (rest.1, (.groq, n) :: rest.2)
  else openaiStage env runs jitter

/-- Transcription of `generateWithFallback` (lines 92–179): Gemini stage,
then Groq stage, then OpenAI stage. -/
def generateWithFallback (env : Env) (runs : ProviderRuns ε) (jitter : Nat → ℚ) :
    Except FallbackError String × List (Provider × Nat) :=
  if truthyKey env.geminiKey then
    match tryGemini runs.gemini jitter with
    | (.ok t, n) => (.ok t, [(.gemini, n)])
    | (.error _, n) =>
      let rest := groqStage env runs jitter
      (rest.1, (.gemini, n) :: rest.2)
  else groqStage env runs jitter

/-! ### Specification-side view of the cascade, for claim C9 -/

/-- The configured providers, in the cascade's fixed priority order. -/
def configuredList (env : Env) : List Provider :=
  (if truthyKey env.geminiKey then [Provider.gemini] else [])
    ++ (if truthyKey env.groqKey then [Provider.groq] else [])
    ++ (if truthyKey env.openaiKey then [Provider.openai] else [])

/-- The outcome (result and external-call count) of attempting one
provider, retry policy included. -/
def outcomeOf (runs : ProviderRuns ε) (jitter : Nat → ℚ) :
    Provider → Except (BranchError ε) String × Nat
  | .gemini => tryGemini runs.gemini jitter
  | .groq => tryFetchProvider runs.groq jitter
  | .openai => tryFetchProvider runs.openai jitter

/-- First-success iteration over a list of provider outcomes: return the
first success immediately, attempting nothing after it; if every listed
provider fails, or the list is empty, fail with the generic error. -/
def firstSuccess : List (Provider × (Except (BranchError ε) String × Nat)) →
    Except FallbackError String × List (Provider × Nat)
  | [] => (.error .allProvidersFailed, [])
  | (p, (.ok t, n)) :: _ => (.ok t, [(p, n)])
  | (p, (.error _, n)) :: rest =>
    let r := firstSuccess rest
    (r.1, (p, n) :: r.2)

/-! ## JSON values and `JSON.stringify` (for the cache key, lines 199–203)

The cache key is `SHA-256(JSON.stringify({ questions, answers }))`.  We model
JSON values as an ordered tree (object fields keep their insertion order,
exactly as `JSON.stringify` serializes them) and transcribe the compact
`JSON.stringify` serialization.  The SHA-256 digest itself is kept abstract
(`hashFn`): every claim about the key factors through the serialized
string. -/

/-- A JSON value; object fields are an ordered association list, as in a JS
object's insertion order. -/
inductive Json where
  | null
  | bool (b : Bool)
  | num (n : Int)
  | str (s : String)
  | arr (elems : List Json)
  | obj (fields : List (String × Json))

/-- Minimal JSON string escaping (quotes and backslashes; the repository's
keys and our inputs contain no control characters). -/
def escapeString (s : String) : String :=
  String.join (s.data.map (fun c =>
    if c = '"' || c = '\\' then "\\" ++ c.toString else c.toString))

mutual

/-- Compact `JSON.stringify` of a JSON value (no spaces, fields in insertion
order — `JSON.stringify` performs no key sorting). -/
def Json.stringify : Json → String
  | .null => "null"
  | .bool true => "true"
  | .bool false => "false"
  | .num n => toString n
  | .str s => "\"" ++ escapeString s ++ "\""
  | .arr elems => "[" ++ stringifyElems elems ++ "]"
  | .obj fields => "\x7b" ++ stringifyFields fields ++ "\x7d"

/-- Comma-separated serialization of array elements. -/
def stringifyElems : List Json → String
  | [] => ""
  | [x] => Json.stringify x
  | x :: xs => Json.stringify x ++ "," ++ stringifyElems xs

/-- Comma-separated serialization of object fields, in stored order. -/
def stringifyFields : List (String × Json) → String
  | [] => ""
  | [(k, v)] => "\"" ++ escapeString k ++ "\":" ++ Json.stringify v
  | (k, v) :: fs => "\"" ++ escapeString k ++ "\":" ++ Json.stringify v ++ "," ++ stringifyFields fs

end

/-- Lexicographic comparison of key character lists (used only to *define*
the key-sorted canonical form; the repository code performs no sorting). -/
def charListLt : List Char → List Char → Bool
  | [], [] => false
  | [], _ :: _ => true
  | _ :: _, [] => false
  | a :: as, b :: bs => if a < b then true else if b < a then false else charListLt as bs

/-- Lexicographic comparison of keys. -/
def keyLt (a b : String) : Bool := charListLt a.data b.data

/-- Insertion into a key-sorted field list (used only to *define* semantic
equality of JSON values; the repository code performs no such sorting). -/
def insertField (p : String × Json) : List (String × Json) → List (String × Json)
  | [] => [p]
  | q :: qs => if keyLt p.1 q.1 then p :: q :: qs else q :: insertField p qs

/-- Key-sorting of a field list. -/
def sortFields (fs : List (String × Json)) : List (String × Json) :=
  fs.foldr insertField []

mutual

/-- The key-order-independent canonical form of a JSON value: object keys
sorted lexicographically at every nesting level.  This is the
canonicalization the specification prescribes; it exists in this file only
to state claim C2 — the repository computes `Json.stringify` directly. -/
def Json.canonicalize : Json → Json
  | .null => .null
  | .bool b => .bool b
  | .num n => .num n
  | .str s => .str s
  | .arr elems => .arr (canonicalizeElems elems)
  | .obj fields => .obj (sortFields (canonicalizeFields fields))

/-- Canonicalization of array elements. -/
def canonicalizeElems : List Json → List Json
  | [] => []
  | x :: xs => Json.canonicalize x :: canonicalizeElems xs

/-- Canonicalization of object field values. -/
def canonicalizeFields : List (String × Json) → List (String × Json)
  | [] => []
  | (k, v) :: fs => (k, Json.canonicalize v) :: canonicalizeFields fs

end

/-- Two JSON values are semantically identical when they differ at most in
object key order at any nesting level. -/
def semanticallyEqual (a b : Json) : Prop :=
  a.canonicalize = b.canonicalize

/-- The serialization hashed for the cache key
(`src/unnamed/part_002` line 199): `JSON.stringify({ questions, answers })`
— note the handler rebuilds the two-field wrapper itself, in this fixed
order. -/
def submissionString (questions answers : Json) : String :=
  Json.stringify (.obj [("questions", questions), ("answers", answers)])

/-- The cache key (lines 200–203): the digest of the serialization.
`hashFn` abstracts `SHA-256` + `bufferToHex`. -/
def cacheKey (hashFn : String → String) (questions answers : Json) : String :=
  hashFn (submissionString questions answers)

/-- First-match association-list lookup. -/
def lookupField : List (String × Json) → String → Option Json
  | [], _ => none
  | (k, v) :: fs, key => if k = key then some v else lookupField fs key

/-- Field lookup on a JSON value, as JS property access / destructuring
(`const { questions, answers } = await req.json()`). -/
def Json.getField (j : Json) (k : String) : Option Json :=
  match j with
  | .obj fields => lookupField fields k
  | _ => none

/-- The destructuring of the request body at `src/unnamed/part_002` line
195: the handler reads exactly the `questions` and `answers` properties. -/
def requestExtract (body : Json) : Option Json × Option Json :=
  (body.getField "questions", body.getField "answers")

/-! ## The `serve` handler (`src/unnamed/part_002` lines 189–290)

Cache read (lines 205–217): a read error with code other than `PGRST116` is
only `console.warn`ed; the handler then checks `if (cached)` — when the read
errored, `data` is `null`, so the handler proceeds exactly as on a miss.
Successful generation (lines 256–277): the raw winning text is parsed only
to populate the cache; a parse failure or insert error is only warned, and
the raw text is returned as the 200 response body regardless. -/

/-- A PostgREST error as surfaced by `supabase-js` (`code`, `message`). -/
structure PgError where
  code : String
  message : String
deriving DecidableEq, Repr

/-- The HTTP response the handler returns. -/
structure HResponse where
  status : Nat
  body : String
deriving DecidableEq, Repr

/-- Transcription of the evaluation path of the `serve` handler, from the
parsed request body on.  Effect parameters: `parse` is `JSON.parse` on the
winning text (`none` = exception); `cached`/`cacheError` are the
`data`/`error` of the cache `select ... single()`; `insertError` is the
`error` of the cache `insert`.  Besides the response, the successful cache
inserts `(hash, result)` are returned, recording what was written. -/
def serveEval (parse : String → Option Json) (hashFn : String → String)
    (questions answers : Json)
    (cached : Option Json) (_cacheError : Option PgError)
    (insertError : Option PgError)
    (env : Env) (runs : ProviderRuns ε) (jitter : Nat → ℚ) :
    HResponse × List (String × Json) :=
  let hash := cacheKey hashFn questions answers
  -- lines 207–209: `if (cacheError && cacheError.code !== 'PGRST116')
  -- console.warn(...)` — logging only, no effect on the result.
  match cached with
  | some result =>
    -- lines 211–216: cache hit, return the stored result.
    ({ status := 200, body := Json.stringify result }, [])
  | none =>
    match (generateWithFallback env runs jitter).1 with
    | .error e =>
      -- lines 278–289: the outer catch returns 500 with the error message.
      ({ status := 500
         body := Json.stringify (.obj [("error", .str (fallbackErrorMessage e))]) }, [])
    | .ok jsonResponseString =>
      let writes :=
        match parse jsonResponseString, insertError with
        | some result, none => [(hash, result)]
        | some _, some _ => []  -- insert error: warned only (line 263)
        | none, _ => []         -- parse threw: warned only (line 268)
      ({ status := 200, body := jsonResponseString }, writes)

/-! ## Shared helper lemmas -/

/-- A left fold whose step adds `f a` computes `init` plus the sum of the
mapped list. -/
theorem foldl_step_eq {α : Type} (step : ℚ → α → ℚ) (f : α → ℚ)
    (hstep : ∀ t a, step t a = t + f a) (l : List α) (init : ℚ) :
    l.foldl step init = init + (l.map f).sum := by
  induction l generalizing init with
  | nil => simp
  | cons x xs ih =>
    rw [List.foldl_cons, hstep, ih, List.map_cons, List.sum_cons]
    ring

/-- Evaluation rule for `jsRound` at a concrete value bracketed by integer
bounds. -/
theorem jsRound_eq_of (x : ℚ) (n : ℤ) (h1 : (n : ℚ) ≤ x + 1/2) (h2 : x + 1/2 < (n : ℚ) + 1) :
    jsRound x = n := by
  have hle : n ≤ jsRound x := Rat.le_floor.mpr h1
  have hlt : jsRound x < n + 1 := by
    by_contra hcon
    push_neg at hcon
    have h3 := Rat.le_floor.mp hcon
    push_cast at h3
    linarith
  omega

/-- The awarded-marks reducer computes the sum of the scores. -/
theorem totalAwardedMarks_eq_sum (ss : List QuestionScore) :
    totalAwardedMarks ss = (ss.map QuestionScore.score).sum := by
  have h := foldl_step_eq _ QuestionScore.score (fun _ _ => rfl) ss 0
  rw [zero_add] at h
  exact h

/-- Each step of the possible-marks reducer adds exactly `maxMarksOf q`. -/
theorem totalPossibleStep_eq (total : ℚ) (q : Question) :
    totalPossibleStep total q = total + maxMarksOf q := by
  rcases q with ⟨t, m, c⟩
  cases t <;> cases c <;> rfl

/-- The possible-marks reducer computes the sum of the per-question maximum
marks: each question contributes its `maxMarksOf` exactly once. -/
theorem totalPossibleMarks_eq_sum (qs : List Question) :
    totalPossibleMarks qs = (qs.map maxMarksOf).sum := by
  have h := foldl_step_eq totalPossibleStep maxMarksOf totalPossibleStep_eq qs 0
  rw [zero_add] at h
  exact h

/-- On a comprehension question with sub-questions, `maxMarksOf` is the sum
of the sub-question marks. -/
theorem maxMarksOf_comprehension (q : Question) (cqs : List ComprehensionQuestion)
    (ht : q.type = QuestionType.readingComprehension)
    (hc : q.comprehensionQuestions = some cqs) :
    maxMarksOf q = (cqs.map ComprehensionQuestion.marks).sum := by
  rcases q with ⟨t, m, c⟩
  cases ht
  cases hc
  have h := foldl_step_eq _ ComprehensionQuestion.marks (fun _ _ => rfl) cqs 0
  rw [zero_add] at h
  exact h

/-- On a simple question (not comprehension, or no sub-question array),
`maxMarksOf` is `q.marks`. -/
theorem maxMarksOf_simple (q : Question)
    (h : q.type ≠ QuestionType.readingComprehension ∨ q.comprehensionQuestions = none) :
    maxMarksOf q = q.marks := by
  rcases q with ⟨t, m, c⟩
  cases t <;> rcases c with _ | cqs <;> try rfl
  rcases h with h | h
  · exact absurd rfl h
  · exact Option.noConfusion h

/-- The enriched branch of `processEvaluation009`, in closed form. -/
theorem processEvaluation009_enriched (questions : List Question) (ev : EvalIn)
    (ss : List QuestionScore)
    (hss : ev.questionScores = some ss) (hlen : ss.length = questions.length) :
    processEvaluation009 questions ev =
      { overallScore := overallScoreOf (totalAwardedMarks ss) (totalPossibleMarks questions)
        feedback := ev.feedback
        suggestions := ev.suggestions
        strengths := ev.strengths
        weaknesses := ev.weaknesses
        questionScores := some ((ss.zip questions).map
          (fun p => { score := p.1.score, feedback := p.1.feedback
                      maxMarks := some (maxMarksOf p.2) }))
        totalAwardedMarks := some (totalAwardedMarks ss)
        totalPossibleMarks := some (totalPossibleMarks questions) } := by
  unfold processEvaluation009
  rw [hss]
  simp only [if_pos hlen]

/-- The enriched branch of `processEvaluationServices`, in closed form. -/
theorem processEvaluationServices_enriched (questions : List Question) (ev : EvalIn)
    (ss : List QuestionScore)
    (hss : ev.questionScores = some ss) (hlen : ss.length = questions.length) :
    processEvaluationServices questions ev =
      { overallScore := overallScoreOf (totalAwardedMarks ss) (totalPossibleMarks questions)
        feedback := ev.feedback
        suggestions := ev.suggestions
        strengths := ev.strengths
        weaknesses := ev.weaknesses
        questionScores := some ((ss.zip questions).map
          (fun p => { score := percentageScore p.1.score (maxMarksOf p.2)
                      feedback := p.1.feedback
                      maxMarks := none }))
        totalAwardedMarks := none
        totalPossibleMarks := none } := by
  unfold processEvaluationServices
  rw [hss]
  simp only [if_pos hlen]

/-! ## Claim C5 -/

/-- C5: for every accepted provider result (scores present and matching the
question count), the part_009 aggregator computes `maxMarks` per question as
`question.marks` for a simple item and as the once-counted sum of the
sub-question marks for a comprehension item; `totalAwardedMarks` is the sum
of the per-question scores; `totalPossibleMarks` is the sum of the
`maxMarks`; and `overallScore` is `round(totalAwardedMarks /
totalPossibleMarks * 100)` when `totalPossibleMarks > 0` and `0` otherwise,
`0/0` included, with no division by zero. -/
theorem C5_aggregator_arithmetic (questions : List Question) (ev : EvalIn)
    (ss : List QuestionScore)
    (hss : ev.questionScores = some ss) (hlen : ss.length = questions.length) :
    (processEvaluation009 questions ev).totalAwardedMarks
        = some ((ss.map QuestionScore.score).sum)
    ∧ (processEvaluation009 questions ev).totalPossibleMarks
        = some ((questions.map maxMarksOf).sum)
    ∧ (∀ q cqs, q.type = QuestionType.readingComprehension →
        q.comprehensionQuestions = some cqs →
        maxMarksOf q = (cqs.map ComprehensionQuestion.marks).sum)
    ∧ (∀ q, q.type ≠ QuestionType.readingComprehension ∨ q.comprehensionQuestions = none →
        maxMarksOf q = q.marks)
    ∧ (processEvaluation009 questions ev).overallScore
        = (if 0 < (questions.map maxMarksOf).sum
           then (jsRound ((ss.map QuestionScore.score).sum
                  / (questions.map maxMarksOf).sum * 100) : ℚ)
           else 0)
    ∧ ((ss.map QuestionScore.score).sum = 0 → (questions.map maxMarksOf).sum = 0 →
        (processEvaluation009 questions ev).overallScore = 0) := by
  rw [processEvaluation009_enriched questions ev ss hss hlen]
  refine ⟨by rw [totalAwardedMarks_eq_sum], by rw [totalPossibleMarks_eq_sum],
    maxMarksOf_comprehension, maxMarksOf_simple, ?_, ?_⟩
  · show overallScoreOf (totalAwardedMarks ss) (totalPossibleMarks questions) = _
    rw [overallScoreOf, totalAwardedMarks_eq_sum, totalPossibleMarks_eq_sum]
  · intro _ hp
    show overallScoreOf (totalAwardedMarks ss) (totalPossibleMarks questions) = 0
    rw [overallScoreOf, totalPossibleMarks_eq_sum, hp]
    norm_num

/-- Witness for C5: the specification's own example — two simple questions
of 5 marks each, provider scores 4 and 5 — giving `totalAwardedMarks = 9`,
`totalPossibleMarks = 10`, `overallScore = 90`. -/
theorem C5_aggregator_arithmetic_witness :
    (({ overallScore := 0, feedback := "f", suggestions := "s", strengths := "st",
        weaknesses := "w",
        questionScores := some [{ score := 4, feedback := "a" }, { score := 5, feedback := "b" }] }
          : EvalIn).questionScores
        = some [{ score := 4, feedback := "a" }, { score := 5, feedback := "b" }])
    ∧ ([({ score := 4, feedback := "a" } : QuestionScore), { score := 5, feedback := "b" }].length
        = [({ type := QuestionType.shortAnswer, marks := 5, comprehensionQuestions := none } : Question),
           { type := QuestionType.shortAnswer, marks := 5, comprehensionQuestions := none }].length)
    ∧ (processEvaluation009
        [{ type := QuestionType.shortAnswer, marks := 5, comprehensionQuestions := none },
         { type := QuestionType.shortAnswer, marks := 5, comprehensionQuestions := none }]
        { overallScore := 0, feedback := "f", suggestions := "s", strengths := "st",
          weaknesses := "w",
          questionScores := some [{ score := 4, feedback := "a" }, { score := 5, feedback := "b" }] }).totalAwardedMarks
        = some 9
    ∧ (processEvaluation009
        [{ type := QuestionType.shortAnswer, marks := 5, comprehensionQuestions := none },
         { type := QuestionType.shortAnswer, marks := 5, comprehensionQuestions := none }]
        { overallScore := 0, feedback := "f", suggestions := "s", strengths := "st",
          weaknesses := "w",
          questionScores := some [{ score := 4, feedback := "a" }, { score := 5, feedback := "b" }] }).totalPossibleMarks
        = some 10
    ∧ (processEvaluation009
        [{ type := QuestionType.shortAnswer, marks := 5, comprehensionQuestions := none },
         { type := QuestionType.shortAnswer, marks := 5, comprehensionQuestions := none }]
        { overallScore := 0, feedback := "f", suggestions := "s", strengths := "st",
          weaknesses := "w",
          questionScores := some [{ score := 4, feedback := "a" }, { score := 5, feedback := "b" }] }).overallScore
        = 90 := by
  have h := C5_aggregator_arithmetic
    [{ type := QuestionType.shortAnswer, marks := 5, comprehensionQuestions := none },
     { type := QuestionType.shortAnswer, marks := 5, comprehensionQuestions := none }]
    { overallScore := 0, feedback := "f", suggestions := "s", strengths := "st",
      weaknesses := "w",
      questionScores := some [{ score := 4, feedback := "a" }, { score := 5, feedback := "b" }] }
    [{ score := 4, feedback := "a" }, { score := 5, feedback := "b" }]
    rfl rfl
  refine ⟨rfl, rfl, ?_, ?_, ?_⟩
  · rw [h.1]; norm_num
  · rw [h.2.1]; norm_num [maxMarksOf]
  · rw [h.2.2.2.2.1]
    norm_num [maxMarksOf]
    rw [jsRound_eq_of 90 90 (by norm_num) (by norm_num)]
    norm_num

/-! ## Claim C1 -/

/-- C1 is false of the current revision (`src/services/aiService.ts`): for a
simple 5-mark question and an awarded score of 4, its `evaluateTest`
post-processing returns the entry with `score = 80` — the per-question
percentage, not the raw awarded 4 — and attaches no `maxMarks` field. -/
theorem C1_counterexample :
    (processEvaluationServices
        [{ type := QuestionType.shortAnswer, marks := 5, comprehensionQuestions := none }]
        { overallScore := 0, feedback := "f", suggestions := "s", strengths := "st",
          weaknesses := "w", questionScores := some [{ score := 4, feedback := "fb" }] }).questionScores
      = some [{ score := 80, feedback := "fb", maxMarks := none }]
    ∧ (80 : ℚ) ≠ 4 := by
  have hp : percentageScore 4 5 = 80 := by
    rw [percentageScore, if_pos (by norm_num : (0:ℚ) < 5)]
    rw [show (4:ℚ)/5*100 = 80 by norm_num]
    rw [jsRound_eq_of 80 80 (by norm_num) (by norm_num)]
    norm_num
  constructor
  · rw [processEvaluationServices_enriched _ _ [{ score := 4, feedback := "fb" }] rfl rfl]
    simp [maxMarksOf, hp]
  · norm_num

/-- C1 amended: the two `evaluateTest` revisions disagree.  Whenever the
provider reply passes the guard, the `src/unnamed/part_009` revision keeps
each `questionScores[i].score` as the raw awarded-marks value and attaches
`maxMarks`, exactly as the claim states; but the
`src/services/aiService.ts` revision replaces each `score` with the
per-question percentage `percentageScore` and never attaches `maxMarks`. -/
theorem C1_amended_theorem (questions : List Question) (ev : EvalIn) (ss : List QuestionScore)
    (hss : ev.questionScores = some ss) (hlen : ss.length = questions.length) :
    ∃ raw pct : List QuestionScoreOut,
      (processEvaluation009 questions ev).questionScores = some raw
      ∧ (processEvaluationServices questions ev).questionScores = some pct
      ∧ raw.length = ss.length
      ∧ pct.length = ss.length
      ∧ ∀ (i : Nat) (s : QuestionScore) (q : Question),
          ss[i]? = some s → questions[i]? = some q →
          raw[i]? = some { score := s.score, feedback := s.feedback
                           maxMarks := some (maxMarksOf q) }
          ∧ pct[i]? = some { score := percentageScore s.score (maxMarksOf q)
                             feedback := s.feedback, maxMarks := none } := by
  refine ⟨(ss.zip questions).map
      (fun p => { score := p.1.score, feedback := p.1.feedback
                  maxMarks := some (maxMarksOf p.2) }),
    (ss.zip questions).map
      (fun p => { score := percentageScore p.1.score (maxMarksOf p.2)
                  feedback := p.1.feedback, maxMarks := none }),
    ?_, ?_, ?_, ?_, ?_⟩
  · rw [processEvaluation009_enriched questions ev ss hss hlen]
  · rw [processEvaluationServices_enriched questions ev ss hss hlen]
  · simp [hlen]
  · simp [hlen]
  · intro i s q hs hq
    have hz : (ss.zip questions)[i]? = some (s, q) :=
      List.getElem?_zip_eq_some.mpr ⟨hs, hq⟩
    constructor
    · rw [List.getElem?_map, hz]
      rfl
    · rw [List.getElem?_map, hz]
      rfl

/-- Witness for the amended C1 at a concrete accepted reply: one simple
5-mark question with awarded score 4. -/
theorem C1_amended_witness :
    (({ overallScore := 0, feedback := "", suggestions := "", strengths := "",
        weaknesses := "",
        questionScores := some [{ score := 4, feedback := "fb" }] } : EvalIn).questionScores
      = some [{ score := 4, feedback := "fb" }])
    ∧ ([({ score := 4, feedback := "fb" } : QuestionScore)].length
        = [({ type := QuestionType.shortAnswer, marks := 5,
              comprehensionQuestions := none } : Question)].length)
    ∧ ∃ raw pct : List QuestionScoreOut,
      (processEvaluation009
          [{ type := QuestionType.shortAnswer, marks := 5, comprehensionQuestions := none }]
          { overallScore := 0, feedback := "", suggestions := "", strengths := "",
            weaknesses := "",
            questionScores := some [{ score := 4, feedback := "fb" }] }).questionScores = some raw
      ∧ (processEvaluationServices
          [{ type := QuestionType.shortAnswer, marks := 5, comprehensionQuestions := none }]
          { overallScore := 0, feedback := "", suggestions := "", strengths := "",
            weaknesses := "",
            questionScores := some [{ score := 4, feedback := "fb" }] }).questionScores = some pct
      ∧ raw.length = [({ score := 4, feedback := "fb" } : QuestionScore)].length
      ∧ pct.length = [({ score := 4, feedback := "fb" } : QuestionScore)].length
      ∧ ∀ (i : Nat) (s : QuestionScore) (q : Question),
          [({ score := 4, feedback := "fb" } : QuestionScore)][i]? = some s →
          [({ type := QuestionType.shortAnswer, marks := 5,
              comprehensionQuestions := none } : Question)][i]? = some q →
          raw[i]? = some { score := s.score, feedback := s.feedback
                           maxMarks := some (maxMarksOf q) }
          ∧ pct[i]? = some { score := percentageScore s.score (maxMarksOf q)
                             feedback := s.feedback, maxMarks := none } :=
  ⟨rfl, rfl,
    C1_amended_theorem
      [{ type := QuestionType.shortAnswer, marks := 5, comprehensionQuestions := none }]
      { overallScore := 0, feedback := "", suggestions := "", strengths := "",
        weaknesses := "",
        questionScores := some [{ score := 4, feedback := "fb" }] }
      [{ score := 4, feedback := "fb" }] rfl rfl⟩

/-! ## Claim C6 -/

/-- C6 is false: when the structured provider reply carries a
`questionScores` array whose length (0) differs from the number of questions
(1), `evaluateTest` does not surface any error — it silently returns the
unvalidated result unchanged (the aggregation guard merely skips). -/
theorem C6_counterexample :
    (evaluateTest009 (fun _ => none)
        [{ type := QuestionType.shortAnswer, marks := 5, comprehensionQuestions := none }]
        (some (.json { overallScore := 0, feedback := "f", suggestions := "s",
                       strengths := "st", weaknesses := "w", questionScores := some [] })))
      = .ok { overallScore := 0, feedback := "f", suggestions := "s", strengths := "st",
              weaknesses := "w", questionScores := some [], totalAwardedMarks := none,
              totalPossibleMarks := none }
    ∧ ([] : List QuestionScore).length
        ≠ [({ type := QuestionType.shortAnswer, marks := 5,
              comprehensionQuestions := none } : Question)].length := by
  constructor
  · rfl
  · decide

/-- C6 amended: a reply whose text fails to JSON-parse is surfaced to the
caller as the invalid-format error, without retry, in both revisions; but a
missing or length-mismatched `questionScores` is *not* an error — both
revisions return the reply unchanged, without aggregation. -/
theorem C6_amended_theorem (parse : String → Option EvalIn) (questions : List Question)
    (s : String) (ev : EvalIn) :
    (parse (stripFence s) = none →
      evaluateTest009 parse questions (some (.str s)) = .error (.invalidFormat s)
      ∧ evaluateTestServices parse questions (some (.str s)) = .error (.invalidFormat s))
    ∧ ((∀ ss, ev.questionScores = some ss → ss.length ≠ questions.length) →
      evaluateTest009 parse questions (some (.json ev)) = .ok (passthroughOut ev)
      ∧ evaluateTestServices parse questions (some (.json ev)) = .ok (passthroughOut ev)) := by
  constructor
  · intro hp
    constructor
    · show (match parse (stripFence s) with
          | none => Except.error (ClientError.invalidFormat s)
          | some ev => Except.ok (processEvaluation009 questions ev))
        = Except.error (ClientError.invalidFormat s)
      rw [hp]
    · show (match parse (stripFence s) with
          | none => Except.error (ClientError.invalidFormat s)
          | some ev => Except.ok (processEvaluationServices questions ev))
        = Except.error (ClientError.invalidFormat s)
      rw [hp]
  · intro hmis
    have h009 : processEvaluation009 questions ev = passthroughOut ev := by
      unfold processEvaluation009
      cases hqs : ev.questionScores with
      | none => rfl
      | some ss => exact if_neg (hmis ss hqs)
    have hsvc : processEvaluationServices questions ev = passthroughOut ev := by
      unfold processEvaluationServices
      cases hqs : ev.questionScores with
      | none => rfl
      | some ss => exact if_neg (hmis ss hqs)
    refine ⟨?_, ?_⟩
    · show Except.ok (processEvaluation009 questions ev) = Except.ok (passthroughOut ev)
      exact congrArg Except.ok h009
    · show Except.ok (processEvaluationServices questions ev) = Except.ok (passthroughOut ev)
      exact congrArg Except.ok hsvc

/-- Witness for the amended C6: a string reply no parse accepts surfaces the
invalid-format error; a structured reply with an empty `questionScores`
against one question is returned unchanged. -/
theorem C6_amended_witness :
    evaluateTest009 (fun _ => none)
        [{ type := QuestionType.shortAnswer, marks := 5, comprehensionQuestions := none }]
        (some (.str "oops")) = .error (.invalidFormat "oops")
    ∧ evaluateTest009 (fun _ => none)
        [{ type := QuestionType.shortAnswer, marks := 5, comprehensionQuestions := none }]
        (some (.json { overallScore := 0, feedback := "f", suggestions := "s",
                       strengths := "st", weaknesses := "w", questionScores := some [] }))
      = .ok (passthroughOut { overallScore := 0, feedback := "f", suggestions := "s",
                              strengths := "st", weaknesses := "w", questionScores := some [] }) := by
  have h := C6_amended_theorem (fun _ => none)
    [{ type := QuestionType.shortAnswer, marks := 5, comprehensionQuestions := none }]
    "oops"
    { overallScore := 0, feedback := "f", suggestions := "s",
      strengths := "st", weaknesses := "w", questionScores := some [] }
  refine ⟨(h.1 rfl).1, (h.2 ?_).1⟩
  intro ss hss
  have hss2 : ss = [] := by simpa using hss.symm
  subst hss2
  decide

/-! ## Claim C7 -/

/-- With positive fuel, the retry loop invokes `fn` at least once. -/
theorem retryAux_calls_pos (fn : Nat → Except ε α) (jitter : Nat → ℚ) (k i : Nat)
    (hk : 0 < k) : 0 < (retryAux fn jitter k i).2.1 := by
  cases k with
  | zero => exact absurd hk (lt_irrefl 0)
  | succ k =>
    simp only [retryAux]
    cases hfn : fn i with
    | ok a => simp
    | error e =>
      by_cases hk0 : k = 0
      · simp [hk0]
      · simp [hk0]

/-- The waits recorded by the retry loop are exactly the backoff delays of
the consecutive non-final attempts, starting at attempt `i`. -/
theorem retryAux_waits (fn : Nat → Except ε α) (jitter : Nat → ℚ) (k i : Nat) :
    (retryAux fn jitter k i).2.2
      = (List.range' i ((retryAux fn jitter k i).2.1 - 1)).map (retryDelay jitter) := by
  induction k generalizing i with
  | zero => rfl
  | succ k ih =>
    simp only [retryAux]
    cases hfn : fn i with
    | ok a => rfl
    | error e =>
      by_cases hk0 : k = 0
      · subst hk0
        simp
      · simp only [if_neg hk0]
        have hpos := retryAux_calls_pos fn jitter k (i + 1) (Nat.pos_of_ne_zero hk0)
        obtain ⟨m, hm⟩ : ∃ m, (retryAux fn jitter k (i + 1)).2.1 = m + 1 :=
      ⟨(retryAux fn jitter k (i + 1)).2.1 - 1, by omega⟩
        rw [ih (i + 1), hm]
        simp only [Nat.add_sub_cancel]
        rw [List.range'_succ i m 1]
        rfl

/-- When every attempt fails, the retry loop returns the error of the final
attempt (`i === retries - 1` rethrows). -/
theorem retryAux_all_fail (fn : Nat → Except ε α) (jitter : Nat → ℚ) (err : Nat → ε)
    (hfn : ∀ i, fn i = .error (err i)) (k i : Nat) (hk : 0 < k) :
    (retryAux fn jitter k i).1 = .error (.fnErr (err (i + k - 1))) := by
  induction k generalizing i with
  | zero => exact absurd hk (lt_irrefl 0)
  | succ k ih =>
    simp only [retryAux, hfn i]
    by_cases hk0 : k = 0
    · subst hk0
      simp
    · simp only [if_neg hk0]
      rw [ih (i + 1) (Nat.pos_of_ne_zero hk0)]
      have harg : i + 1 + k - 1 = i + (k + 1) - 1 := by omega
      rw [harg]

/-- C7: the delay after zero-indexed failed attempt `i` is
`1000 * 2^i + jitter` with jitter in `[0, 1000)`, so each delay lies in
`[1000 * 2^i, 1000 * 2^i + 1000)` and delays are non-decreasing; the default
attempt budget is 3; a full run's recorded waits follow exactly this
formula; and when every attempt fails, the final attempt's error is
propagated, not swallowed. -/
theorem C7_retry_policy (jitter : Nat → ℚ) (hj : ∀ i, 0 ≤ jitter i ∧ jitter i < 1000) :
    (∀ i : Nat, retryDelay jitter i = 1000 * 2 ^ i + jitter i
      ∧ 1000 * 2 ^ i ≤ retryDelay jitter i
      ∧ retryDelay jitter i < 1000 * 2 ^ i + 1000)
    ∧ (∀ i : Nat, retryDelay jitter i ≤ retryDelay jitter (i + 1))
    ∧ (∀ (α : Type) (fn : Nat → Except Unit α), withRetry fn jitter = withRetry fn jitter 3)
    ∧ (∀ (α : Type) (fn : Nat → Except Unit α) (retries : Nat),
        (withRetry fn jitter retries).2.2
          = (List.range ((withRetry fn jitter retries).2.1 - 1)).map (retryDelay jitter))
    ∧ (∀ (α : Type) (fn : Nat → Except Unit α) (err : Nat → Unit) (retries : Nat),
        0 < retries → (∀ i, fn i = .error (err i)) →
        (withRetry fn jitter retries).1 = .error (.fnErr (err (retries - 1)))) := by
  refine ⟨?_, ?_, ?_, ?_, ?_⟩
  · intro i
    refine ⟨rfl, ?_, ?_⟩
    · have := (hj i).1
      simp only [retryDelay]
      linarith
    · have := (hj i).2
      simp only [retryDelay]
      linarith
  · intro i
    have hji := hj i
    have hji1 := hj (i + 1)
    have h1 : (1:ℚ) ≤ 2 ^ i := one_le_pow₀ (by norm_num)
    simp only [retryDelay, pow_succ]
    nlinarith [hji.1, hji.2, hji1.1, hji1.2, h1]
  · intro α fn
    rfl
  · intro α fn retries
    rw [List.range_eq_range']
    exact retryAux_waits fn jitter retries 0
  · intro α fn err retries hr hfn
    have h := retryAux_all_fail fn jitter err hfn retries 0 hr
    rwa [Nat.zero_add] at h

/-- Witness for C7 at the concrete zero jitter stream. -/
theorem C7_retry_policy_witness :
    (∀ _i : Nat, 0 ≤ (0:ℚ) ∧ (0:ℚ) < 1000)
    ∧ ((∀ i : Nat, retryDelay (fun _ => 0) i = 1000 * 2 ^ i + (fun _ : Nat => (0:ℚ)) i
        ∧ 1000 * 2 ^ i ≤ retryDelay (fun _ => 0) i
        ∧ retryDelay (fun _ => 0) i < 1000 * 2 ^ i + 1000)
      ∧ (∀ i : Nat, retryDelay (fun _ => 0) i ≤ retryDelay (fun _ => 0) (i + 1))
      ∧ (∀ (α : Type) (fn : Nat → Except Unit α),
          withRetry fn (fun _ => 0) = withRetry fn (fun _ => 0) 3)
      ∧ (∀ (α : Type) (fn : Nat → Except Unit α) (retries : Nat),
          (withRetry fn (fun _ => 0) retries).2.2
            = (List.range ((withRetry fn (fun _ => 0) retries).2.1 - 1)).map
                (retryDelay (fun _ => 0)))
      ∧ (∀ (α : Type) (fn : Nat → Except Unit α) (err : Nat → Unit) (retries : Nat),
          0 < retries → (∀ i, fn i = .error (err i)) →
          (withRetry fn (fun _ => 0) retries).1 = .error (.fnErr (err (retries - 1))))) :=
  ⟨fun _ => ⟨le_refl 0, by norm_num⟩,
    C7_retry_policy (fun _ => 0) (fun _ => ⟨le_refl 0, by norm_num⟩)⟩

/-! ## Claim C9 -/

/-- The OpenAI stage equals first-success iteration over its (possibly
empty) configured singleton. -/
theorem openaiStage_eq_firstSuccess (env : Env) (runs : ProviderRuns ε) (jitter : Nat → ℚ) :
    openaiStage env runs jitter
      = firstSuccess ((if truthyKey env.openaiKey then [Provider.openai] else []).map
          (fun p => (p, outcomeOf runs jitter p))) := by
  cases h : truthyKey env.openaiKey with
  | false => simp [openaiStage, h, firstSuccess]
  | true =>
    rcases h2 : tryFetchProvider runs.openai jitter with ⟨r, n⟩
    cases r with
    | ok t => simp [openaiStage, h, h2, firstSuccess, outcomeOf]
    | error e => simp [openaiStage, h, h2, firstSuccess, outcomeOf]

/-- The Groq-then-OpenAI tail of the cascade equals first-success iteration
over the configured tail providers in order. -/
theorem groqStage_eq_firstSuccess (env : Env) (runs : ProviderRuns ε) (jitter : Nat → ℚ) :
    groqStage env runs jitter
      = firstSuccess (((if truthyKey env.groqKey then [Provider.groq] else [])
          ++ (if truthyKey env.openaiKey then [Provider.openai] else [])).map
          (fun p => (p, outcomeOf runs jitter p))) := by
  cases h : truthyKey env.groqKey with
  | false => simpa [groqStage, h] using openaiStage_eq_firstSuccess env runs jitter
  | true =>
    rcases h2 : tryFetchProvider runs.groq jitter with ⟨r, n⟩
    cases r with
    | ok t => simp [groqStage, h, h2, firstSuccess, outcomeOf]
    | error e =>
      have ho := openaiStage_eq_firstSuccess env runs jitter
      simp [groqStage, h, h2, firstSuccess, outcomeOf, ho]

/-- First-success iteration attempts an order-preserved prefix of the listed
providers. -/
theorem firstSuccess_fst_prefix (l : List (Provider × (Except (BranchError ε) String × Nat))) :
    ∃ rest, l.map Prod.fst = (firstSuccess l).2.map Prod.fst ++ rest := by
  induction l with
  | nil => exact ⟨[], rfl⟩
  | cons x xs ih =>
    rcases x with ⟨p, r, n⟩
    cases r with
    | ok t => exact ⟨xs.map Prod.fst, by simp [firstSuccess]⟩
    | error e =>
      obtain ⟨rest, hrest⟩ := ih
      exact ⟨rest, by simp [firstSuccess, hrest]⟩

/-- When first-success iteration succeeds, the succeeding provider is the
last one attempted, and its listed outcome is that success. -/
theorem firstSuccess_ok_last (l : List (Provider × (Except (BranchError ε) String × Nat)))
    (t : String) (h : (firstSuccess l).1 = .ok t) :
    ∃ init p n, (firstSuccess l).2 = init ++ [(p, n)] ∧ (p, (Except.ok t, n)) ∈ l := by
  induction l with
  | nil => simp [firstSuccess] at h
  | cons x xs ih =>
    rcases x with ⟨p, r, n⟩
    cases r with
    | ok t2 =>
      have ht2 : t2 = t := by simpa [firstSuccess] using h
      subst ht2
      exact ⟨[], p, n, by simp [firstSuccess], List.mem_cons_self _ _⟩
    | error e =>
      simp only [firstSuccess] at h
      obtain ⟨init, p2, n2, happ, hmem⟩ := ih h
      exact ⟨(p, n) :: init, p2, n2, by simp [firstSuccess, happ],
        List.mem_cons_of_mem _ hmem⟩

/-- C9: the cascade is exactly first-success iteration over the configured
providers in the fixed priority order Gemini, Groq, OpenAI (unconfigured
providers skipped); the attempted providers are an order-preserved prefix of
that configured list; and on a success the winning provider is the last one
attempted and its raw text is returned — no later provider is attempted. -/
theorem C9_fallback_first_success (env : Env) (runs : ProviderRuns ε) (jitter : Nat → ℚ) :
    generateWithFallback env runs jitter
      = firstSuccess ((configuredList env).map (fun p => (p, outcomeOf runs jitter p)))
    ∧ (∃ rest, configuredList env
        = (generateWithFallback env runs jitter).2.map Prod.fst ++ rest)
    ∧ (∀ t, (generateWithFallback env runs jitter).1 = Except.ok t →
        ∃ init p n, (generateWithFallback env runs jitter).2 = init ++ [(p, n)]
          ∧ outcomeOf runs jitter p = (Except.ok t, n)) := by
  have hmain : generateWithFallback env runs jitter
      = firstSuccess ((configuredList env).map (fun p => (p, outcomeOf runs jitter p))) := by
    unfold configuredList
    cases h : truthyKey env.geminiKey with
    | false => simpa [generateWithFallback, h] using groqStage_eq_firstSuccess env runs jitter
    | true =>
      rcases h2 : tryGemini runs.gemini jitter with ⟨r, n⟩
      cases r with
      | ok t => simp [generateWithFallback, h, h2, firstSuccess, outcomeOf]
      | error e =>
        have hg := groqStage_eq_firstSuccess env runs jitter
        simp [generateWithFallback, h, h2, firstSuccess, outcomeOf, hg]
  refine ⟨hmain, ?_, ?_⟩
  · obtain ⟨rest, hrest⟩ :=
      firstSuccess_fst_prefix ((configuredList env).map (fun p => (p, outcomeOf runs jitter p)))
    refine ⟨rest, ?_⟩
    rw [hmain, ← hrest, List.map_map]
    have hcomp : (Prod.fst ∘ fun p => (p, outcomeOf runs jitter p)) = id := rfl
    rw [hcomp, List.map_id]
  · intro t ht
    rw [hmain] at ht
    obtain ⟨init, p, n, happ, hmem⟩ :=
      firstSuccess_ok_last ((configuredList env).map (fun p => (p, outcomeOf runs jitter p))) t ht
    obtain ⟨q, _hq, hfq⟩ := List.mem_map.mp hmem
    have hpq : q = p := congrArg Prod.fst hfq
    subst hpq
    refine ⟨init, q, n, ?_, ?_⟩
    · rw [hmain]
      exact happ
    · exact congrArg Prod.snd hfq

/-- Witness for C9 at a concrete environment with all three providers
configured and Gemini succeeding. -/
theorem C9_fallback_first_success_witness :
    generateWithFallback { geminiKey := some "g", groqKey := some "q", openaiKey := some "o" }
        ({ gemini := fun _ => .ok "gtext", groq := fun _ => .error (),
           openai := fun _ => .error () } : ProviderRuns Unit) (fun _ => 0)
      = firstSuccess ((configuredList
            { geminiKey := some "g", groqKey := some "q", openaiKey := some "o" }).map
          (fun p => (p, outcomeOf
            ({ gemini := fun _ => .ok "gtext", groq := fun _ => .error (),
               openai := fun _ => .error () } : ProviderRuns Unit) (fun _ => 0) p)))
    ∧ (∃ rest, configuredList
          { geminiKey := some "g", groqKey := some "q", openaiKey := some "o" }
        = (generateWithFallback { geminiKey := some "g", groqKey := some "q", openaiKey := some "o" }
            ({ gemini := fun _ => .ok "gtext", groq := fun _ => .error (),
               openai := fun _ => .error () } : ProviderRuns Unit) (fun _ => 0)).2.map Prod.fst
          ++ rest)
    ∧ (∀ t, (generateWithFallback { geminiKey := some "g", groqKey := some "q", openaiKey := some "o" }
          ({ gemini := fun _ => .ok "gtext", groq := fun _ => .error (),
             openai := fun _ => .error () } : ProviderRuns Unit) (fun _ => 0)).1 = Except.ok t →
        ∃ init p n,
          (generateWithFallback { geminiKey := some "g", groqKey := some "q", openaiKey := some "o" }
            ({ gemini := fun _ => .ok "gtext", groq := fun _ => .error (),
               openai := fun _ => .error () } : ProviderRuns Unit) (fun _ => 0)).2
            = init ++ [(p, n)]
          ∧ outcomeOf ({ gemini := fun _ => .ok "gtext", groq := fun _ => .error (),
                         openai := fun _ => .error () } : ProviderRuns Unit) (fun _ => 0) p
            = (Except.ok t, n)) :=
  C9_fallback_first_success { geminiKey := some "g", groqKey := some "q", openaiKey := some "o" }
    ({ gemini := fun _ => .ok "gtext", groq := fun _ => .error (),
       openai := fun _ => .error () } : ProviderRuns Unit) (fun _ => 0)

/-! ## Claim C4 -/

/-- C4 is false: with zero providers configured, `generateWithFallback`
fails with the very same generic all-providers-failed error it uses when
every configured provider fails — the code has no distinct
`NoProviderConfigured` failure (its error type has a single constructor). -/
theorem C4_counterexample :
    (generateWithFallback { geminiKey := none, groqKey := none, openaiKey := none }
        ({ gemini := fun _ => .error (), groq := fun _ => .error (),
           openai := fun _ => .error () } : ProviderRuns Unit) (fun _ => 0)).1
      = .error .allProvidersFailed
    ∧ (generateWithFallback { geminiKey := some "gk", groqKey := some "qk", openaiKey := some "okey" }
        ({ gemini := fun _ => .error (), groq := fun _ => .error (),
           openai := fun _ => .error () } : ProviderRuns Unit) (fun _ => 0)).1
      = .error .allProvidersFailed := by
  constructor
  · rfl
  · rfl

/-- C4 amended: when zero providers are configured the cascade attempts
nothing and throws the one generic all-providers-failed error — the same
failure used on exhaustion, with no distinct zero-configured error. -/
theorem C4_amended_theorem (env : Env) (runs : ProviderRuns ε) (jitter : Nat → ℚ)
    (h : configuredList env = []) :
    generateWithFallback env runs jitter = (.error .allProvidersFailed, []) := by
  have hg : truthyKey env.geminiKey = false := by
    cases hh : truthyKey env.geminiKey
    · rfl
    · simp [configuredList, hh] at h
  have hq : truthyKey env.groqKey = false := by
    cases hh : truthyKey env.groqKey
    · rfl
    · simp [configuredList, hh] at h
  have ho : truthyKey env.openaiKey = false := by
    cases hh : truthyKey env.openaiKey
    · rfl
    · simp [configuredList, hh] at h
  simp [generateWithFallback, groqStage, openaiStage, hg, hq, ho]

/-- Witness for the amended C4: the all-keys-missing environment. -/
theorem C4_amended_witness :
    configuredList { geminiKey := none, groqKey := none, openaiKey := none } = []
    ∧ generateWithFallback { geminiKey := none, groqKey := none, openaiKey := none }
        ({ gemini := fun _ => .error (), groq := fun _ => .error (),
           openai := fun _ => .error () } : ProviderRuns Unit) (fun _ => 0)
      = (.error .allProvidersFailed, []) :=
  ⟨rfl, C4_amended_theorem _ _ _ rfl⟩

/-! ## Claim C3 -/

/-- If the very first attempt resolves successfully, the retry loop stops
after that single invocation. -/
theorem retryAux_first_ok (fn : Nat → Except ε α) (jitter : Nat → ℚ) (k i : Nat)
    (a : α) (h : fn i = .ok a) (hk : 0 < k) :
    retryAux fn jitter k i = (.ok a, 1, []) := by
  cases k with
  | zero => exact absurd hk (lt_irrefl 0)
  | succ k => simp [retryAux, h]

/-- When every attempt fails, the retry loop makes exactly `k` calls. -/
theorem retryAux_all_fail_calls (fn : Nat → Except ε α) (jitter : Nat → ℚ) (err : Nat → ε)
    (hfn : ∀ i, fn i = .error (err i)) (k i : Nat) (hk : 0 < k) :
    (retryAux fn jitter k i).2.1 = k := by
  induction k generalizing i with
  | zero => exact absurd hk (lt_irrefl 0)
  | succ k ih =>
    simp only [retryAux, hfn i]
    by_cases hk0 : k = 0
    · subst hk0
      simp
    · simp only [if_neg hk0]
      have := ih (i + 1) (Nat.pos_of_ne_zero hk0)
      simp [this]

/-- C3 is false: with only Groq configured and its endpoint answering every
attempt with HTTP 500, the cascade performs exactly **one** HTTP call — not
the 3-attempt retry budget — before giving up and falling through. -/
theorem C3_counterexample :
    generateWithFallback { geminiKey := none, groqKey := some "k", openaiKey := none }
        ({ gemini := fun _ => .error (),
           groq := fun _ => .ok { ok := false, status := 500,
                                  body := "Internal Server Error", choices := [] },
           openai := fun _ => .error () } : ProviderRuns Unit) (fun _ => 0)
      = (.error .allProvidersFailed, [(Provider.groq, 1)])
    ∧ (1 : Nat) ≠ 3 := by
  constructor
  · rfl
  · decide

/-- C3 amended: a non-2xx response is turned into an error carrying the
status code and body and triggers fallback to the next provider, but it is
**not** retried: the `response.ok` check runs after `withRetry` has already
returned, so such a provider makes exactly one HTTP call; only rejected
`fetch` promises (network-level failures) consume the 3-attempt budget. -/
theorem C3_amended_theorem (runs2 : Nat → Except ε HttpResponse) (jitter : Nat → ℚ)
    (resp : HttpResponse) (h0 : runs2 0 = .ok resp) (hok : resp.ok = false) :
    tryFetchProvider runs2 jitter = (.error (.apiError resp.status resp.body), 1)
    ∧ (∀ (env : Env) (runs : ProviderRuns ε), truthyKey env.groqKey = true →
        runs.groq = runs2 →
        groqStage env runs jitter
          = ((openaiStage env runs jitter).1,
             (Provider.groq, 1) :: (openaiStage env runs jitter).2))
    ∧ (∀ (runs3 : Nat → Except ε HttpResponse) (errs : Nat → ε),
        (∀ i, runs3 i = .error (errs i)) → (tryFetchProvider runs3 jitter).2 = 3) := by
  have h1 : tryFetchProvider runs2 jitter = (.error (.apiError resp.status resp.body), 1) := by
    simp only [tryFetchProvider, withRetry]
    rw [retryAux_first_ok runs2 jitter 3 0 resp h0 (by norm_num)]
    simp [hok]
  refine ⟨h1, ?_, ?_⟩
  · intro env runs htrue heq
    simp [groqStage, htrue, heq, h1]
  · intro runs3 errs hfn
    rcases hy : retryAux runs3 jitter 3 0 with ⟨r, n, ws⟩
    have hr : r = .error (.fnErr (errs 2)) := by
      have h2 := retryAux_all_fail runs3 jitter errs hfn 3 0 (by norm_num)
      rw [hy] at h2
      exact h2
    have hn : n = 3 := by
      have h2 := retryAux_all_fail_calls runs3 jitter errs hfn 3 0 (by norm_num)
      rw [hy] at h2
      exact h2
    simp [tryFetchProvider, withRetry, hy, hr, hn]

/-- Witness for the amended C3 at a concrete 500 response. -/
theorem C3_amended_witness :
    ((fun _ : Nat => (Except.ok { ok := false, status := 500, body := "err", choices := [] }
        : Except Unit HttpResponse)) 0
      = .ok { ok := false, status := 500, body := "err", choices := [] })
    ∧ (({ ok := false, status := 500, body := "err", choices := [] } : HttpResponse).ok = false)
    ∧ (tryFetchProvider
        (fun _ => (Except.ok { ok := false, status := 500, body := "err", choices := [] }
          : Except Unit HttpResponse)) (fun _ => 0)
        = (.error (.apiError 500 "err"), 1)
      ∧ (∀ (env : Env) (runs : ProviderRuns Unit), truthyKey env.groqKey = true →
          runs.groq = (fun _ => (Except.ok { ok := false, status := 500, body := "err",
                                             choices := [] } : Except Unit HttpResponse)) →
          groqStage env runs (fun _ => 0)
            = ((openaiStage env runs (fun _ => 0)).1,
               (Provider.groq, 1) :: (openaiStage env runs (fun _ => 0)).2))
      ∧ (∀ (runs3 : Nat → Except Unit HttpResponse) (errs : Nat → Unit),
          (∀ i, runs3 i = .error (errs i)) →
          (tryFetchProvider runs3 (fun _ => 0)).2 = 3)) :=
  ⟨rfl, rfl,
    C3_amended_theorem
      (fun _ => (Except.ok { ok := false, status := 500, body := "err", choices := [] }
        : Except Unit HttpResponse))
      (fun _ => 0)
      { ok := false, status := 500, body := "err", choices := [] } rfl rfl⟩

/-! ## Claim C2 -/

/-- C2 is false: two semantically identical `questions` values — the same
single question object with its `marks` and `text` keys in the two possible
orders — produce different serializations before hashing, because the
handler hashes `JSON.stringify({ questions, answers })` directly and
`JSON.stringify` performs no key sorting at nested levels. -/
theorem C2_counterexample :
    semanticallyEqual
      (Json.arr [Json.obj [("marks", Json.num 5), ("text", Json.str "Q1")]])
      (Json.arr [Json.obj [("text", Json.str "Q1"), ("marks", Json.num 5)]])
    ∧ submissionString
        (Json.arr [Json.obj [("marks", Json.num 5), ("text", Json.str "Q1")]])
        (Json.arr [Json.str "ans"])
      ≠ submissionString
        (Json.arr [Json.obj [("text", Json.str "Q1"), ("marks", Json.num 5)]])
        (Json.arr [Json.str "ans"]) := by
  constructor
  · rfl
  · decide

/-- C2 amended: the hashed serialization is `JSON.stringify` of the
`\x7b questions, answers \x7d` wrapper that the handler itself rebuilds, so
the two top-level keys always appear in that fixed order regardless of the
request body's own top-level key order, and the cache key is a function of
the serialization alone; key order *inside* `questions`/`answers` is not
canonicalized. -/
theorem C2_amended_theorem (hashFn : String → String) (q a q2 a2 : Json) :
    submissionString q a
      = Json.stringify (Json.obj [("questions", q), ("answers", a)])
    ∧ (submissionString q a = submissionString q2 a2 →
        cacheKey hashFn q a = cacheKey hashFn q2 a2)
    ∧ requestExtract (Json.obj [("questions", q), ("answers", a)])
        = requestExtract (Json.obj [("answers", a), ("questions", q)])
    ∧ requestExtract (Json.obj [("questions", q), ("answers", a)]) = (some q, some a) := by
  refine ⟨rfl, ?_, rfl, rfl⟩
  intro h
  unfold cacheKey
  rw [h]

/-- Witness for the amended C2 at concrete null payloads. -/
theorem C2_amended_witness :
    submissionString Json.null Json.null
      = Json.stringify (Json.obj [("questions", Json.null), ("answers", Json.null)])
    ∧ cacheKey (fun s => s) Json.null Json.null = cacheKey (fun s => s) Json.null Json.null
    ∧ requestExtract (Json.obj [("questions", Json.null), ("answers", Json.null)])
        = requestExtract (Json.obj [("answers", Json.null), ("questions", Json.null)])
    ∧ requestExtract (Json.obj [("questions", Json.null), ("answers", Json.null)])
        = (some Json.null, some Json.null) := by
  have h := C2_amended_theorem (fun s => s) Json.null Json.null Json.null Json.null
  exact ⟨h.1, h.2.1 rfl, h.2.2.1, h.2.2.2⟩

/-! ## Claim C8 -/

/-- C8: cache failures never affect the evaluation: the handler's
response-and-writes pair is completely independent of the cache read error
(`data` is null on a failed read, which then behaves exactly as a miss);
the response is independent of any insert error (a failed write is only
logged); and on a miss the response is exactly the one determined by the
generation outcome — no cache error aborts evaluation or changes what the
caller receives. -/
theorem C8_cache_errors_nonfatal (parse : String → Option Json) (hashFn : String → String)
    (questions answers : Json) (cached : Option Json)
    (cacheErr cacheErr2 insertErr : Option PgError)
    (env : Env) (runs : ProviderRuns ε) (jitter : Nat → ℚ) :
    serveEval parse hashFn questions answers cached cacheErr insertErr env runs jitter
      = serveEval parse hashFn questions answers cached cacheErr2 insertErr env runs jitter
    ∧ (serveEval parse hashFn questions answers cached cacheErr insertErr env runs jitter).1
      = (serveEval parse hashFn questions answers cached cacheErr none env runs jitter).1
    ∧ (serveEval parse hashFn questions answers none cacheErr insertErr env runs jitter).1
      = (match (generateWithFallback env runs jitter).1 with
         | .ok s => { status := 200, body := s }
         | .error e =>
           { status := 500
             body := Json.stringify (.obj [("error", .str (fallbackErrorMessage e))]) }) := by
  refine ⟨rfl, ?_, ?_⟩
  · cases cached with
    | some r => rfl
    | none =>
      cases hg : (generateWithFallback env runs jitter).1 with
      | error e => simp [serveEval, hg]
      | ok s =>
        cases hp : parse s with
        | none => simp [serveEval, hg, hp]
        | some r =>
          cases insertErr with
          | none => simp [serveEval, hg, hp]
          | some e2 => simp [serveEval, hg, hp]
  · cases hg : (generateWithFallback env runs jitter).1 with
    | error e => simp [serveEval, hg]
    | ok s =>
      cases hp : parse s with
      | none => simp [serveEval, hg, hp]
      | some r =>
        cases insertErr with
        | none => simp [serveEval, hg, hp]
        | some e2 => simp [serveEval, hg, hp]

/-! ## Claim C10 -/

/-- C10: on a cache miss, the raw winning text is returned verbatim as the
200 response body even when it is not valid JSON — the server-side parse is
attempted only to populate the cache, and when that parse fails nothing is
written; when it succeeds, the body is still the raw text and the parsed
value is cached (unless the insert itself errors, which is only logged).
The server never rejects the winning provider's output. -/
theorem C10_raw_text_returned (parse : String → Option Json) (hashFn : String → String)
    (questions answers : Json) (cacheErr insertErr : Option PgError)
    (env : Env) (runs : ProviderRuns ε) (jitter : Nat → ℚ) (s : String)
    (hgen : (generateWithFallback env runs jitter).1 = .ok s) :
    (serveEval parse hashFn questions answers none cacheErr insertErr env runs jitter).1
      = { status := 200, body := s }
    ∧ (parse s = none →
        serveEval parse hashFn questions answers none cacheErr insertErr env runs jitter
          = ({ status := 200, body := s }, []))
    ∧ (∀ r, parse s = some r →
        serveEval parse hashFn questions answers none cacheErr insertErr env runs jitter
          = ({ status := 200, body := s },
             match insertErr with
             | none => [(cacheKey hashFn questions answers, r)]
             | some _ => [])) := by
  refine ⟨?_, ?_, ?_⟩
  · cases hp : parse s with
    | none => simp [serveEval, hgen, hp]
    | some r =>
      cases insertErr with
      | none => simp [serveEval, hgen, hp]
      | some e2 => simp [serveEval, hgen, hp]
  · intro hp
    simp [serveEval, hgen, hp]
  · intro r hp
    cases insertErr with
    | none => simp [serveEval, hgen, hp]
    | some e2 => simp [serveEval, hgen, hp]

/-- Witness for C10: Gemini configured and succeeding with a reply no parse
accepts; the handler still answers 200 with that raw reply and writes no
cache row. -/
theorem C10_raw_text_returned_witness :
    ((generateWithFallback { geminiKey := some "g", groqKey := none, openaiKey := none }
        ({ gemini := fun _ => .ok "notjson", groq := fun _ => .error (),
           openai := fun _ => .error () } : ProviderRuns Unit) (fun _ => 0)).1
      = .ok "notjson")
    ∧ ((serveEval (fun _ => none) (fun s => s) Json.null Json.null none none none
          { geminiKey := some "g", groqKey := none, openaiKey := none }
          ({ gemini := fun _ => .ok "notjson", groq := fun _ => .error (),
             openai := fun _ => .error () } : ProviderRuns Unit) (fun _ => 0)).1
        = { status := 200, body := "notjson" }
      ∧ ((fun _ : String => (none : Option Json)) "notjson" = none →
          serveEval (fun _ => none) (fun s => s) Json.null Json.null none none none
            { geminiKey := some "g", groqKey := none, openaiKey := none }
            ({ gemini := fun _ => .ok "notjson", groq := fun _ => .error (),
               openai := fun _ => .error () } : ProviderRuns Unit) (fun _ => 0)
            = ({ status := 200, body := "notjson" }, []))
      ∧ (∀ r, (fun _ : String => (none : Option Json)) "notjson" = some r →
          serveEval (fun _ => none) (fun s => s) Json.null Json.null none none none
            { geminiKey := some "g", groqKey := none, openaiKey := none }
            ({ gemini := fun _ => .ok "notjson", groq := fun _ => .error (),
               openai := fun _ => .error () } : ProviderRuns Unit) (fun _ => 0)
            = ({ status := 200, body := "notjson" },
               match (none : Option PgError) with
               | none => [(cacheKey (fun s => s) Json.null Json.null, r)]
               | some _ => []))) :=
  ⟨rfl,
    C10_raw_text_returned (fun _ => none) (fun s => s) Json.null Json.null none none
      { geminiKey := some "g", groqKey := none, openaiKey := none }
      ({ gemini := fun _ => .ok "notjson", groq := fun _ => .error (),
         openai := fun _ => .error () } : ProviderRuns Unit) (fun _ => 0) "notjson" rfl⟩

end SmarTest
